import Mathlib

/-!
Shallow embedding of `app.py` (docker-monitor): a polling loop that
classifies docker resources (containers, swarm nodes, replicated services)
into status strings and renders them on a Blinkt! LED strip.

Modelling conventions:
- The Blinkt! strip is a `List Color`; its length plays the role of
  `blinkt.NUM_PIXELS`.  We model the hardware-attached case (`BLINKT = True`
  in the source); with no hardware every sink operation is a no-op.
- Brightness values (Python floats 0.0–1.0, all exact multiples of 0.1 in
  the palette) are stored as tenths in a `Nat`.
- A Python `dict` lookup that can raise `KeyError` becomes an
  `Option`-returning function; a raised exception aborting the enclosing
  loop becomes a `none`/`Except.error` result.
- Raw docker records are structures carrying exactly the fields the
  helpers read.
-/

/-- An RGB color plus brightness (in tenths), as passed to
`blinkt.set_pixel` / `blinkt.set_all`. -/
structure Color where
  r : Nat
  g : Nat
  b : Nat
  brightness : Nat
deriving DecidableEq, Repr

/-- The static palette `BlinktHelper.colors`: a dict from status string to
color; lookup of an absent key (Python `KeyError`) is `none`.
Brightness is in tenths (0.6 ↦ 6, etc.). -/
def BlinktHelper.colors (status : String) : Option Color :=
  if status = "initialize" then some ⟨0, 0, 255, 6⟩
  else if status = "updating" then some ⟨0, 0, 255, 6⟩
  else if status = "completed" then some ⟨0, 255, 0, 2⟩
  else if status = "running" then some ⟨0, 255, 0, 2⟩
  else if status = "ready" then some ⟨0, 255, 0, 2⟩
  else if status = "disconnected" then some ⟨255, 0, 0, 8⟩
  else if status = "paused" then some ⟨255, 136, 0, 4⟩
  else if status = "warning" then some ⟨255, 136, 0, 4⟩
  else if status = "down" then some ⟨255, 0, 0, 8⟩
  else if status = "exited" then some ⟨255, 0, 0, 8⟩
  else if status = "stopped" then some ⟨255, 0, 0, 8⟩
  else none

/-- The all-off pixel value `blinkt.set_all(0, 0, 0, 0)` writes. -/
def BlinktHelper.off : Color := ⟨0, 0, 0, 0⟩

/-- `BlinktHelper.reset_lights`: sets every pixel of the strip to off. -/
def BlinktHelper.reset_lights (strip : List Color) : List Color :=
  List.replicate strip.length BlinktHelper.off

/-- `BlinktHelper.set_light(position, status)`: looks the status up in the
palette (raising `KeyError`, i.e. `none`, when absent) and writes the color
to pixel `position % NUM_PIXELS`, where `NUM_PIXELS` is the strip length. -/
def BlinktHelper.set_light (strip : List Color) (position : Nat)
    (status : String) : Option (List Color) :=
  match BlinktHelper.colors status with
  | some c => some (strip.set (position % strip.length) c)
  | none => none

/-- The `{"name": ..., "status": ...}` dict each `get_status` returns. -/
structure StatusRecord where
  name : String
  status : String
deriving DecidableEq, Repr

/-- A docker container as `ContainerHelper` reads it: `.name`, `.status`. -/
structure Container where
  name : String
  status : String
deriving DecidableEq, Repr

/-- A swarm node as `NodeHelper` reads it: `.id` and
`.attrs["Status"]["State"]`. -/
structure Node where
  id : String
  state : String
deriving DecidableEq, Repr

/-- A service task as `ServiceHelper` reads it: `task["Status"]["State"]`. -/
structure SvcTask where
  state : String
deriving DecidableEq, Repr

/-- A swarm service as `ServiceHelper` reads it: `.name`,
`.attrs["Spec"]["Mode"]["Replicated"]["Replicas"]`, and its task list. -/
structure Service where
  name : String
  replicas : Nat
  tasks : List SvcTask
deriving DecidableEq, Repr

/-- `ContainerHelper.get_status`: passes the container's name and raw
lifecycle status string through verbatim. -/
def ContainerHelper.get_status (item : Container) : StatusRecord :=
  ⟨item.name, item.status⟩

/-- `NodeHelper.get_status`: passes the node's id and raw membership state
string through verbatim. -/
def NodeHelper.get_status (item : Node) : StatusRecord :=
  ⟨item.id, item.state⟩

/-- `ServiceHelper.get_status`: counts the tasks whose state is exactly
`running` (the `for` loop with `continue`), then reports `running` when the
count equals the declared replica count and `warning` otherwise. -/
def ServiceHelper.get_status (item : Service) : StatusRecord :=
  let replicas := item.replicas
  let nbTasks := item.tasks.foldl
    (fun nb task => if task.state ≠ "running" then nb else nb + 1) 0
  let status := if nbTasks = replicas then "running" else "warning"
  ⟨item.name, status⟩

/-- The `for item in items` body of `DockerHelper.monitor`: classify each
item, append the record to `self.states`, and set pixel `position` from the
record's status.  A palette `KeyError` aborts the loop (first component
`none`); the strip (the physical device state) is returned in every case. -/
def DockerHelper.monitorLoop {α : Type} (g : α → StatusRecord) :
    List α → Nat → List StatusRecord → List Color →
    Option (List StatusRecord) × List Color
  | [], _, states, strip => (some states, strip)
  | item :: rest, position, states, strip =>
    match BlinktHelper.set_light strip position (g item).status with
    | some strip2 =>
      DockerHelper.monitorLoop g rest (position + 1) (states ++ [g item]) strip2
    | none => (none, strip)

/-- `DockerHelper.monitor`: reset all lights, then run the per-item loop
from position 0, accumulating onto the helper's existing `self.states`. -/
def DockerHelper.monitor {α : Type} (g : α → StatusRecord) (items : List α)
    (states : List StatusRecord) (strip : List Color) :
    Option (List StatusRecord) × List Color :=
  DockerHelper.monitorLoop g items 0 states (BlinktHelper.reset_lights strip)

/-- `ContainerHelper.get_items`: `self.client.containers.list(all=True)`
wrapped in a bare `try/except` that turns any listing failure into `[]`. -/
def ContainerHelper.get_items (listing : Except String (List Container)) :
    Except String (List Container) :=
  match listing with
  | .ok items => .ok items
  | .error _ => .ok []

/-- `NodeHelper.get_items`: `self.client.nodes.list()` with no exception
handling — a listing failure propagates. -/
def NodeHelper.get_items (listing : Except String (List Node)) :
    Except String (List Node) :=
  listing

/-- `ServiceHelper.get_items`: `self.client.services.list()` with no
exception handling — a listing failure propagates. -/
def ServiceHelper.get_items (listing : Except String (List Service)) :
    Except String (List Service) :=
  listing

/-- One full `monitor()` call of `ContainerHelper`, starting from the
provider's listing outcome: `get_items` then the monitor pass. -/
def ContainerHelper.poll (listing : Except String (List Container))
    (states : List StatusRecord) (strip : List Color) :
    Except String (Option (List StatusRecord) × List Color) :=
  match ContainerHelper.get_items listing with
  | .ok items => .ok (DockerHelper.monitor ContainerHelper.get_status items states strip)
  | .error e => .error e

/-- One full `monitor()` call of `NodeHelper`. -/
def NodeHelper.poll (listing : Except String (List Node))
    (states : List StatusRecord) (strip : List Color) :
    Except String (Option (List StatusRecord) × List Color) :=
  match NodeHelper.get_items listing with
  | .ok items => .ok (DockerHelper.monitor NodeHelper.get_status items states strip)
  | .error e => .error e

/-- One full `monitor()` call of `ServiceHelper`. -/
def ServiceHelper.poll (listing : Except String (List Service))
    (states : List StatusRecord) (strip : List Color) :
    Except String (Option (List StatusRecord) × List Color) :=
  match ServiceHelper.get_items listing with
  | .ok items => .ok (DockerHelper.monitor ServiceHelper.get_status items states strip)
  | .error e => .error e

/-- One iteration of `main`'s `while 1` loop: `HealthManager()` is
constructed afresh, so the chosen helper starts with `self.states = []`. -/
def HealthManager.monitorCycle {α : Type} (g : α → StatusRecord)
    (items : List α) (strip : List Color) :
    Option (List StatusRecord) × List Color :=
  DockerHelper.monitor g items [] strip

/-- `main`'s monitor loop over a finite schedule of per-cycle listings:
each cycle runs on a fresh `HealthManager` (fresh `states`), threading the
physical strip; an uncaught exception in a cycle (first component `none`)
stops the loop — there is no `try/except` around the loop body. -/
def mainLoop {α : Type} (g : α → StatusRecord) :
    List (List α) → List Color →
    Option (List (List StatusRecord)) × List Color
  | [], strip => (some [], strip)
  | items :: rest, strip =>
    match HealthManager.monitorCycle g items strip with
    | (some states, strip2) =>
      match mainLoop g rest strip2 with
      | (some results, strip3) => (some (states :: results), strip3)
      | (none, strip3) => (none, strip3)
    | (none, strip2) => (none, strip2)

/-- Every item's classified status has a palette entry (so the monitor
loop's `set_light` never raises). -/
def allKnown {α : Type} (g : α → StatusRecord) (items : List α) : Bool :=
  items.all fun it => (BlinktHelper.colors (g it).status).isSome

/-- The largest `j < M` with `(p + j) % N = i`, if any: the index of the
last record written to strip position `i` when `M` records are rendered
starting at position `p` on a strip of length `N`. -/
def lastHit? : Nat → Nat → Nat → Nat → Option Nat
  | 0, _, _, _ => none
  | M + 1, p, N, i => if (p + M) % N = i then some M else lastHit? M p N i

theorem foldl_count_running (tasks : List SvcTask) (n : Nat) :
    tasks.foldl (fun nb task => if task.state ≠ "running" then nb else nb + 1) n
      = n + tasks.countP (fun t => t.state == "running") := by
  induction tasks generalizing n with
  | nil => simp
  | cons t ts ih =>
    rw [List.foldl_cons, ih, List.countP_cons]
    by_cases h : t.state = "running"
    · simp only [h, ne_eq, not_true_eq_false, if_false, beq_self_eq_true, if_true]
      omega
    · simp [h]

/-- C1: a service is classified `running` exactly when the number of its
tasks whose state string is exactly `running` equals the declared replica
count; every other count (zero, undercount, overcount) yields `warning`. -/
theorem service_running_iff_exact_replicas (item : Service) :
    ((ServiceHelper.get_status item).status = "running"
      ↔ item.tasks.countP (fun t => t.state == "running") = item.replicas)
    ∧ ((ServiceHelper.get_status item).status = "warning"
      ↔ item.tasks.countP (fun t => t.state == "running") ≠ item.replicas) := by
  unfold ServiceHelper.get_status
  simp only [foldl_count_running, Nat.zero_add]
  by_cases h : item.tasks.countP (fun t => t.state == "running") = item.replicas <;>
    simp [h]

theorem monitorLoop_length {α : Type} (g : α → StatusRecord) (items : List α)
    (p : Nat) (st : List StatusRecord) (s : List Color) :
    ((DockerHelper.monitorLoop g items p st s).2).length = s.length := by
  induction items generalizing p st s with
  | nil => rfl
  | cons it rest ih =>
    simp only [DockerHelper.monitorLoop, BlinktHelper.set_light]
    cases hc : BlinktHelper.colors (g it).status with
    | some c => rw [ih, List.length_set]
    | none => rfl

theorem monitorLoop_strip_states {α : Type} (g : α → StatusRecord)
    (items : List α) (p : Nat) (st st' : List StatusRecord) (s : List Color) :
    (DockerHelper.monitorLoop g items p st s).2
      = (DockerHelper.monitorLoop g items p st' s).2 := by
  induction items generalizing p st st' s with
  | nil => rfl
  | cons it rest ih =>
    simp only [DockerHelper.monitorLoop, BlinktHelper.set_light]
    cases hc : BlinktHelper.colors (g it).status with
    | some c => exact ih _ _ _ _
    | none => rfl

theorem monitorLoop_untouched {α : Type} (g : α → StatusRecord)
    (items : List α) (p : Nat) (st : List StatusRecord) (s : List Color)
    (i : Nat) (h : ∀ j, j < items.length → (p + j) % s.length ≠ i) :
    ((DockerHelper.monitorLoop g items p st s).2)[i]? = s[i]? := by
  induction items generalizing p st s with
  | nil => rfl
  | cons it rest ih =>
    simp only [DockerHelper.monitorLoop, BlinktHelper.set_light]
    cases hc : BlinktHelper.colors (g it).status with
    | some c =>
      have h0 : p % s.length ≠ i := by
        have := h 0 (by simp)
        simpa using this
      have hset : (s.set (p % s.length) c)[i]? = s[i]? :=
        List.getElem?_set_ne h0
      rw [ih (p + 1) (st ++ [g it]) (s.set (p % s.length) c) ?_, hset]
      intro j hj
      rw [List.length_set]
      have := h (j + 1) (by simpa using Nat.succ_lt_succ hj)
      simpa [Nat.add_assoc, Nat.add_comm 1 j] using this
    | none => rfl

theorem monitorLoop_ok {α : Type} (g : α → StatusRecord) (items : List α)
    (p : Nat) (st : List StatusRecord) (s : List Color)
    (h : allKnown g items = true) :
    (DockerHelper.monitorLoop g items p st s).1 = some (st ++ items.map g) := by
  induction items generalizing p st s with
  | nil => simp [DockerHelper.monitorLoop]
  | cons it rest ih =>
    simp only [allKnown, List.all_cons, Bool.and_eq_true] at h
    obtain ⟨hhead, hrest⟩ := h
    obtain ⟨c, hc⟩ := Option.isSome_iff_exists.mp hhead
    simp only [DockerHelper.monitorLoop, BlinktHelper.set_light, hc]
    rw [ih _ _ _ hrest]
    simp

theorem monitorLoop_err {α : Type} (g : α → StatusRecord) (items : List α)
    (p : Nat) (st : List StatusRecord) (s : List Color)
    (h : allKnown g items = false) :
    (DockerHelper.monitorLoop g items p st s).1 = none := by
  induction items generalizing p st s with
  | nil => simp [allKnown] at h
  | cons it rest ih =>
    simp only [allKnown, List.all_cons, Bool.and_eq_false_iff] at h
    simp only [DockerHelper.monitorLoop, BlinktHelper.set_light]
    cases hc : BlinktHelper.colors (g it).status with
    | some c =>
      have hrest : allKnown g rest = false := by
        rcases h with h | h
        · rw [hc] at h; simp at h
        · exact h
      exact ih _ _ _ hrest
    | none => rfl

/-- C2 fails as stated: `ContainerHelper.get_status` passes the container's
raw lifecycle string through verbatim, and the real docker lifecycle state
`restarting` has no palette entry, so rendering this classified status
fails the palette lookup (`KeyError`). -/
theorem classify_palette_counterexample :
    BlinktHelper.colors
      (ContainerHelper.get_status ⟨"web", "restarting"⟩).status = none := by
  decide

/-- C2 (amended): only the service classifier is closed over the palette —
it can only produce `running` or `warning`, both palette keys.  The
container and node classifiers pass the item's raw state string through
verbatim, so their status has a palette entry exactly when the raw string
itself is a palette key. -/
theorem classify_palette_closure :
    (∀ svc : Service,
        (BlinktHelper.colors (ServiceHelper.get_status svc).status).isSome = true)
    ∧ (∀ c : Container,
        BlinktHelper.colors (ContainerHelper.get_status c).status
          = BlinktHelper.colors c.status)
    ∧ (∀ n : Node,
        BlinktHelper.colors (NodeHelper.get_status n).status
          = BlinktHelper.colors n.state) := by
  refine ⟨fun svc => ?_, fun c => rfl, fun n => rfl⟩
  have hs : (ServiceHelper.get_status svc).status = "running"
      ∨ (ServiceHelper.get_status svc).status = "warning" := by
    simp only [ServiceHelper.get_status]
    by_cases h : svc.tasks.foldl
        (fun nb task => if task.state ≠ "running" then nb else nb + 1) 0
          = svc.replicas
    · left; rw [if_pos h]
    · right; rw [if_neg h]
  rcases hs with h | h <;> rw [h] <;> decide

/-- C3: when the provider's listing call fails, the container helper
recovers locally — its poll succeeds with an empty cycle result (and a
cleared strip) — while the node and service helpers propagate the failure
to the caller. -/
theorem listing_failure_policy (e : String) (s : List Color) :
    ContainerHelper.poll (.error e) [] s
      = .ok (some [], List.replicate s.length BlinktHelper.off)
    ∧ NodeHelper.poll (.error e) [] s = .error e
    ∧ ServiceHelper.poll (.error e) [] s = .error e :=
  ⟨rfl, rfl, rfl⟩

/-- C7: rendering the same item list twice in succession leaves the strip
in the same state as rendering it once — each monitor pass first resets the
strip to a length-preserving all-off frame, so the second pass replays the
first one's writes exactly. -/
theorem render_idempotent {α : Type} (g : α → StatusRecord) (items : List α)
    (st st' : List StatusRecord) (s : List Color) :
    (DockerHelper.monitor g items st' ((DockerHelper.monitor g items st s).2)).2
      = (DockerHelper.monitor g items st s).2 := by
  unfold DockerHelper.monitor BlinktHelper.reset_lights
  rw [monitorLoop_length, List.length_replicate]
  exact monitorLoop_strip_states g items 0 st' st _

/-- C8: every strip position is cleared to off before the per-record render
pass: rendering an empty result yields an all-off strip, and any position
that no record index maps to (mod strip length) is off after the pass —
never a leftover of a previous frame. -/
theorem reset_before_render {α : Type} (g : α → StatusRecord) :
    (∀ (st : List StatusRecord) (s : List Color),
        DockerHelper.monitor g ([] : List α) st s
          = (some st, List.replicate s.length BlinktHelper.off))
    ∧ ∀ (items : List α) (st : List StatusRecord) (s : List Color) (i : Nat),
        i < s.length → (∀ j, j < items.length → j % s.length ≠ i) →
        ((DockerHelper.monitor g items st s).2)[i]? = some BlinktHelper.off := by
  constructor
  · intro st s; rfl
  · intro items st s i hi hj
    unfold DockerHelper.monitor
    rw [monitorLoop_untouched]
    · simp [BlinktHelper.reset_lights, List.getElem?_replicate, hi]
    · intro j hjl
      simpa [BlinktHelper.reset_lights] using hj j hjl

/-- Witness for C8 at a concrete input: one running container on a strip of
three pixels leaves position 2 off. -/
theorem reset_before_render_witness :
    ((DockerHelper.monitor ContainerHelper.get_status [⟨"a", "running"⟩] []
        (List.replicate 3 BlinktHelper.off)).2)[2]? = some BlinktHelper.off :=
  (reset_before_render ContainerHelper.get_status).2 [⟨"a", "running"⟩] []
    (List.replicate 3 BlinktHelper.off) 2 (by decide) (by decide)

theorem monitorLoop_append {α : Type} (g : α → StatusRecord)
    (l1 l2 : List α) (p : Nat) (st : List StatusRecord) (s : List Color) :
    DockerHelper.monitorLoop g (l1 ++ l2) p st s =
      match DockerHelper.monitorLoop g l1 p st s with
      | (some st2, s2) => DockerHelper.monitorLoop g l2 (p + l1.length) st2 s2
      | (none, s2) => (none, s2) := by
  induction l1 generalizing p st s with
  | nil => simp [DockerHelper.monitorLoop]
  | cons it rest ih =>
    simp only [List.cons_append, DockerHelper.monitorLoop]
    cases hc : BlinktHelper.set_light s p (g it).status with
    | some s2 =>
      simp only [List.length_cons, List.append_eq]
      rw [ih]
      have harith : p + 1 + rest.length = p + (rest.length + 1) := by omega
      rw [harith]
    | none => rfl

theorem monitorLoop_ok_pair {α : Type} (g : α → StatusRecord)
    (items : List α) (p : Nat) (st : List StatusRecord) (s : List Color)
    (h : allKnown g items = true) :
    DockerHelper.monitorLoop g items p st s
      = (some (st ++ items.map g), (DockerHelper.monitorLoop g items p st s).2) := by
  have h1 := monitorLoop_ok g items p st s h
  cases he : DockerHelper.monitorLoop g items p st s with
  | mk r s2 => rw [he] at h1; simp at h1; simp [h1]

/-- C10: rendering is not atomic with respect to palette failures.  If the
palette lookup fails at the item following a fully renderable prefix, the
monitor pass aborts with the strip exactly as the prefix alone would have
left it — the partial frame persists; nothing clears it or restores the
previous frame on the error path. -/
theorem render_partial_frame_on_error {α : Type} (g : α → StatusRecord)
    (good : List α) (bad : α) (rest : List α)
    (st : List StatusRecord) (s : List Color)
    (hgood : allKnown g good = true)
    (hbad : BlinktHelper.colors (g bad).status = none) :
    DockerHelper.monitor g (good ++ bad :: rest) st s
      = (none, (DockerHelper.monitor g good st s).2) := by
  unfold DockerHelper.monitor
  rw [monitorLoop_append, monitorLoop_ok_pair g good 0 st _ hgood]
  simp only [DockerHelper.monitorLoop, BlinktHelper.set_light, hbad]

/-- Witness for C10: one running container followed by a `restarting` one
on an 8-pixel strip aborts with exactly the one-item partial frame. -/
theorem render_partial_frame_on_error_witness :
    DockerHelper.monitor ContainerHelper.get_status
        ((⟨"a", "running"⟩ : Container) :: ⟨"b", "restarting"⟩ :: [])
        [] (List.replicate 8 BlinktHelper.off)
      = (none, (DockerHelper.monitor ContainerHelper.get_status
          [(⟨"a", "running"⟩ : Container)] []
          (List.replicate 8 BlinktHelper.off)).2) :=
  render_partial_frame_on_error ContainerHelper.get_status
    [⟨"a", "running"⟩] ⟨"b", "restarting"⟩ [] [] (List.replicate 8 BlinktHelper.off)
    (by decide) (by decide)

/-- C5: each cycle of `main`'s loop constructs a fresh `HealthManager`, so
a successful run of consecutive cycles produces, per cycle, exactly one
status record per item retrieved in that cycle — results replace rather
than accumulate, and the retained state never grows across cycles. -/
theorem poll_cycles_replace {α : Type} (g : α → StatusRecord)
    (cycles : List (List α)) (s : List Color)
    (results : List (List StatusRecord))
    (h : (mainLoop g cycles s).1 = some results) :
    List.Forall₂ (fun r c => r.length = c.length) results cycles := by
  induction cycles generalizing s results with
  | nil =>
    simp only [mainLoop] at h
    cases h
    exact List.Forall₂.nil
  | cons c rest ih =>
    cases he : HealthManager.monitorCycle g c s with
    | mk r s2 =>
      cases r with
      | none => simp [mainLoop, he] at h
      | some states =>
        cases hm : mainLoop g rest s2 with
        | mk or2 s3 =>
          cases or2 with
          | none => simp [mainLoop, he, hm] at h
          | some results2 =>
            simp only [mainLoop, he, hm, Option.some.injEq] at h
            subst h
            by_cases hk : allKnown g c = true
            · have h1 : (HealthManager.monitorCycle g c s).1
                  = some ([] ++ c.map g) :=
                monitorLoop_ok g c 0 [] (BlinktHelper.reset_lights s) hk
              rw [he] at h1
              simp only [List.nil_append, Option.some.injEq] at h1
              refine List.Forall₂.cons ?_ (ih s2 results2 (by rw [hm]))
              rw [h1, List.length_map]
            · have h1 : (HealthManager.monitorCycle g c s).1 = none :=
                monitorLoop_err g c 0 []
                  (BlinktHelper.reset_lights s) (by simpa using hk)
              rw [he] at h1
              simp at h1

/-- Witness for C5 at a concrete input: two cycles of one and two
containers yield one and two records respectively. -/
theorem poll_cycles_replace_witness :
    List.Forall₂
      (fun (r : List StatusRecord) (c : List Container) => r.length = c.length)
      [[⟨"a", "running"⟩], [⟨"b", "exited"⟩, ⟨"c", "paused"⟩]]
      [[⟨"a", "running"⟩], [⟨"b", "exited"⟩, ⟨"c", "paused"⟩]] :=
  poll_cycles_replace ContainerHelper.get_status
    [[⟨"a", "running"⟩], [⟨"b", "exited"⟩, ⟨"c", "paused"⟩]]
    (List.replicate 8 BlinktHelper.off)
    [[⟨"a", "running"⟩], [⟨"b", "exited"⟩, ⟨"c", "paused"⟩]]
    (by decide)

/-- C6 fails as stated: a classification/palette failure does abort the
current cycle and is surfaced, but nothing catches it at the cycle
boundary — `main`'s `while 1` body has no exception handling, so the error
propagates and no later cycle runs.  Here cycle 1 contains a `restarting`
container (no palette key): the run's overall outcome is the error, even
though cycle 2 alone would have succeeded. -/
theorem classification_failure_counterexample :
    (mainLoop ContainerHelper.get_status
        [[⟨"a", "restarting"⟩], [⟨"b", "running"⟩]]
        (List.replicate 8 BlinktHelper.off)).1 = none
    ∧ (mainLoop ContainerHelper.get_status [[⟨"b", "running"⟩]]
        (List.replicate 8 BlinktHelper.off)).1
      = some [[⟨"b", "running"⟩]] :=
  ⟨by decide, by decide⟩

/-- C6 (amended): an item whose classified status has no palette entry
aborts the current poll cycle at that item and is surfaced as an error
(never silently defaulted); the error then propagates out of the poll
loop, so the remaining cycles never run (the process terminates) rather
than the next cycle retrying. -/
theorem classification_failure_fatal {α : Type} (g : α → StatusRecord) :
    (∀ (items : List α) (st : List StatusRecord) (s : List Color),
        allKnown g items = false → (DockerHelper.monitor g items st s).1 = none)
    ∧ ∀ (c : List α) (rest : List (List α)) (s : List Color),
        (HealthManager.monitorCycle g c s).1 = none →
        (mainLoop g (c :: rest) s).1 = none := by
  constructor
  · intro items st s h
    exact monitorLoop_err g items 0 st _ h
  · intro c rest s h
    simp only [mainLoop]
    cases he : HealthManager.monitorCycle g c s with
    | mk r s2 =>
      rw [he] at h
      cases r with
      | some states => simp at h
      | none => rfl

/-- Witness for C6 (amended) at a concrete input: a `restarting` container
aborts its cycle, and a run whose first cycle fails yields no result. -/
theorem classification_failure_fatal_witness :
    (DockerHelper.monitor ContainerHelper.get_status
        [(⟨"a", "restarting"⟩ : Container)] []
        (List.replicate 8 BlinktHelper.off)).1 = none
    ∧ (mainLoop ContainerHelper.get_status
        [[(⟨"a", "restarting"⟩ : Container)], [⟨"b", "running"⟩]]
        (List.replicate 8 BlinktHelper.off)).1 = none :=
  ⟨(classification_failure_fatal ContainerHelper.get_status).1 _ [] _ (by decide),
   (classification_failure_fatal ContainerHelper.get_status).2 _ _ _ (by decide)⟩

theorem lastHit?_lt (M p N i j : Nat) (h : lastHit? M p N i = some j) :
    j < M := by
  induction M generalizing j with
  | zero => simp [lastHit?] at h
  | succ M ih =>
    simp only [lastHit?] at h
    by_cases hc : (p + M) % N = i
    · rw [if_pos hc] at h
      simp only [Option.some.injEq] at h
      omega
    · rw [if_neg hc] at h
      exact Nat.lt_succ_of_lt (ih j h)

theorem lastHit?_mod (M p N i j : Nat) (h : lastHit? M p N i = some j) :
    (p + j) % N = i := by
  induction M generalizing j with
  | zero => simp [lastHit?] at h
  | succ M ih =>
    simp only [lastHit?] at h
    by_cases hc : (p + M) % N = i
    · rw [if_pos hc] at h
      simp only [Option.some.injEq] at h
      rw [← h]; exact hc
    · rw [if_neg hc] at h
      exact ih j h

theorem lastHit?_max (M p N i j : Nat) (h : lastHit? M p N i = some j) :
    ∀ k, k < M → (p + k) % N = i → k ≤ j := by
  induction M generalizing j with
  | zero => intro k hk _; omega
  | succ M ih =>
    intro k hk hkm
    simp only [lastHit?] at h
    by_cases hc : (p + M) % N = i
    · rw [if_pos hc] at h
      simp only [Option.some.injEq] at h
      omega
    · rw [if_neg hc] at h
      have hkM : k ≠ M := fun he => hc (he ▸ hkm)
      exact ih j h k (by omega) hkm

theorem lastHit?_exists (M p N i : Nat) :
    ∀ k, k < M → (p + k) % N = i → ∃ j, lastHit? M p N i = some j := by
  induction M with
  | zero => intro k hk _; omega
  | succ M ih =>
    intro k hk hkm
    simp only [lastHit?]
    by_cases hc : (p + M) % N = i
    · rw [if_pos hc]; exact ⟨M, rfl⟩
    · rw [if_neg hc]
      have hkM : k ≠ M := fun he => hc (he ▸ hkm)
      exact ih k (by omega) hkm

theorem monitorLoop_getElem {α : Type} (g : α → StatusRecord) (items : List α)
    (p : Nat) (st : List StatusRecord) (s : List Color) (i : Nat)
    (hall : allKnown g items = true) (hi : i < s.length) :
    ((DockerHelper.monitorLoop g items p st s).2)[i]? =
      match lastHit? items.length p s.length i with
      | some j => Option.bind items[j]? (fun it => BlinktHelper.colors (g it).status)
      | none => s[i]? := by
  induction items using List.reverseRecOn with
  | nil => rfl
  | append_singleton l a ih =>
    have hsplit : allKnown g l = true
        ∧ (BlinktHelper.colors (g a).status).isSome = true := by
      simpa [allKnown, List.all_append, Bool.and_eq_true] using hall
    obtain ⟨c, hc⟩ := Option.isSome_iff_exists.mp hsplit.2
    have hlen : ((DockerHelper.monitorLoop g l p st s).2).length = s.length :=
      monitorLoop_length g l p st s
    cases hpair : DockerHelper.monitorLoop g l p st s with
    | mk r s2 =>
      have hr : r = some (st ++ l.map g) := by
        have := monitorLoop_ok g l p st s hsplit.1
        rw [hpair] at this; exact this
      have hs2 : s2.length = s.length := by rw [hpair] at hlen; exact hlen
      rw [monitorLoop_append, hpair, hr]
      simp only [DockerHelper.monitorLoop, BlinktHelper.set_light, hc,
        List.length_append, List.length_cons, List.length_nil, lastHit?]
      by_cases hcond : (p + l.length) % s.length = i
      · rw [if_pos hcond]
        have hset : (s2.set ((p + l.length) % s2.length) c)[i]? = some c := by
          rw [hs2, hcond]
          exact List.getElem?_set_eq_of_lt c (by rw [hs2]; exact hi)
        rw [hset]
        simp [hc]
      · rw [if_neg hcond]
        have hset : (s2.set ((p + l.length) % s2.length) c)[i]? = s2[i]? := by
          apply List.getElem?_set_ne
          rw [hs2]; exact hcond
        rw [hset]
        have hih := ih hsplit.1
        rw [hpair] at hih
        rw [hih]
        cases hlh : lastHit? l.length p s.length i with
        | none => rfl
        | some j =>
          have hj : j < l.length := lastHit?_lt l.length p s.length i j hlh
          have happ : (l ++ [a])[j]? = l[j]? := by
            rw [List.getElem?_append]; simp [hj]
          simp only [happ]

/-- C4: wraparound is last-writer-wins.  For a strip of length N, more
records than pixels (M > N), and every status in the palette, each strip
position i ends up holding the palette entry of the record at the highest
index j ≤ M-1 with j mod N = i. -/
theorem strip_wraparound_last_writer {α : Type} (g : α → StatusRecord)
    (items : List α) (st : List StatusRecord) (s : List Color)
    (hall : allKnown g items = true)
    (hMN : s.length < items.length) (i : Nat) (hi : i < s.length) :
    ∃ j it, j < items.length ∧ j % s.length = i
      ∧ (∀ k, k < items.length → k % s.length = i → k ≤ j)
      ∧ items[j]? = some it
      ∧ ((DockerHelper.monitor g items st s).2)[i]?
          = BlinktHelper.colors (g it).status
      ∧ (BlinktHelper.colors (g it).status).isSome = true := by
  have hreset_len : (BlinktHelper.reset_lights s).length = s.length := by
    simp [BlinktHelper.reset_lights]
  have hchar := monitorLoop_getElem g items 0 st (BlinktHelper.reset_lights s) i
    hall (by rw [hreset_len]; exact hi)
  have hiM : i < items.length := lt_trans hi hMN
  have hmod0 : (0 + i) % (BlinktHelper.reset_lights s).length = i := by
    rw [hreset_len]
    simpa using Nat.mod_eq_of_lt hi
  obtain ⟨j, hj⟩ := lastHit?_exists items.length 0
    (BlinktHelper.reset_lights s).length i i hiM hmod0
  have hjlt : j < items.length := lastHit?_lt _ _ _ _ _ hj
  have hjmod : j % s.length = i := by
    have hm := lastHit?_mod _ _ _ _ _ hj
    simpa [hreset_len] using hm
  have hjmax : ∀ k, k < items.length → k % s.length = i → k ≤ j := by
    intro k hk hkm
    exact lastHit?_max _ _ _ _ _ hj k hk (by simpa [hreset_len] using hkm)
  obtain ⟨it, hit⟩ : ∃ it, items[j]? = some it :=
    ⟨items[j], List.getElem?_eq_getElem hjlt⟩
  have hmem : it ∈ items := List.getElem?_mem hit
  have hsome : (BlinktHelper.colors (g it).status).isSome = true := by
    simp only [allKnown] at hall
    exact List.all_eq_true.mp hall it hmem
  refine ⟨j, it, hjlt, hjmod, hjmax, hit, ?_, hsome⟩
  simp only [hj, hit, Option.some_bind] at hchar
  simp only [DockerHelper.monitor]
  exact hchar

/-- Witness for C4 at a concrete input: three containers on a 2-pixel
strip; position 0 shows record index 2 (`paused`), not record index 0. -/
theorem strip_wraparound_last_writer_witness :
    ∃ (j : Nat) (it : Container), j < 3 ∧ j % 2 = 0
      ∧ (∀ k, k < 3 → k % 2 = 0 → k ≤ j)
      ∧ [(⟨"a", "running"⟩ : Container), ⟨"b", "exited"⟩, ⟨"c", "paused"⟩][j]?
          = some it
      ∧ ((DockerHelper.monitor ContainerHelper.get_status
            [(⟨"a", "running"⟩ : Container), ⟨"b", "exited"⟩, ⟨"c", "paused"⟩]
            [] (List.replicate 2 BlinktHelper.off)).2)[0]?
          = BlinktHelper.colors (ContainerHelper.get_status it).status
      ∧ (BlinktHelper.colors (ContainerHelper.get_status it).status).isSome
          = true :=
  strip_wraparound_last_writer ContainerHelper.get_status
    [⟨"a", "running"⟩, ⟨"b", "exited"⟩, ⟨"c", "paused"⟩] []
    (List.replicate 2 BlinktHelper.off) (by decide) (by decide) 0 (by decide)
